import Mathlib

/-!
Shallow embedding of the HTTP upload server (`simple_upload_server.go`):
upload sessions, the chunk-upload / finalize / complete handlers, the
init-upload handler and the range-streaming handler.

Modelling conventions:
* byte strings are `List Nat`;
* SHA-256 is an arbitrary hash function threaded as a parameter
  `hashFn : List Nat → String` (the code only compares hashes for equality);
* object-store calls are recorded in an emitted trace (`StoreCall`), and the
  store's answer to each call is passed in as an `Except` argument, so that
  both the success and the failure path of every handler are represented;
* timestamps (`CreatedAt` / `UpdatedAt`) and logging are not modelled: no
  claim mentions them;
* Go's in-place mutation of a session behind a pointer in the manager map is
  modelled by replacing the entry in an association list (`setSession`).
-/

/-- The byte type of chunk payloads. -/
abbrev Bytes := List Nat

/-- Wrap an integer into the range of a Go `int32` (two's complement). -/
def toInt32 (n : Int) : Int := ((n + 2 ^ 31) % 2 ^ 32) - 2 ^ 31

/-- Go `strconv.ParseUint(s, 10, 32)` with the error discarded, as done by
`handleUploadChunk`: a syntactically invalid string (empty, or containing a
non-digit) yields 0, an in-range decimal yields its value, and a decimal
overflowing 32 bits yields `2^32 - 1` (Go returns the max value together with
the range error). -/
def goParseUint32 (s : String) : Nat :=
  let cs := s.toList
  if cs ≠ [] ∧ cs.all Char.isDigit then
    let v := cs.foldl (fun a c => a * 10 + (c.toNat - 48)) 0
    if v < 2 ^ 32 then v else 2 ^ 32 - 1
  else 0

/-- ASCII lower-casing of one character (`strings.ToLower` restricted to the
ASCII range; every extension in the allowlist is ASCII). -/
def asciiToLower (c : Char) : Char :=
  if 'A' ≤ c ∧ c ≤ 'Z' then Char.ofNat (c.toNat + 32) else c

/-- ASCII `strings.ToLower`. -/
def toLowerStr (s : String) : String := String.mk (s.toList.map asciiToLower)

/-- Helper for `filepathExt`: walk the reversed character list, collecting the
suffix until the final dot; stop at a path separator. -/
def extFromRev : List Char → List Char → List Char
  | [], _ => []
  | c :: rest, acc =>
    if c = '/' then []
    else if c = '.' then '.' :: acc
    else extFromRev rest (c :: acc)

/-- Go `filepath.Ext`: the suffix beginning at the final dot in the final
path element; empty if there is no dot. -/
def filepathExt (s : String) : String :=
  String.mk (extFromRev s.toList.reverse [])

/-- `MAX_FILE_SIZE` = 10 GB. -/
def MAX_FILE_SIZE : Nat := 10 * 1024 * 1024 * 1024
/-- `MIN_CHUNK_SIZE` = 5 MB (declared by the server; see the theorems on
`handleInitUpload` for whether it is enforced). -/
def MIN_CHUNK_SIZE : Nat := 5 * 1024 * 1024
/-- `MAX_CHUNK_SIZE` = 100 MB. -/
def MAX_CHUNK_SIZE : Nat := 100 * 1024 * 1024

/-- The `SUPPORTED_EXTENSIONS` allowlist, mapping extension to content type. -/
def SUPPORTED_EXTENSIONS : List (String × String) :=
  [(".mp4", "video/mp4"), (".pdf", "application/pdf"), (".jpg", "image/jpeg"),
   (".jpeg", "image/jpeg"), (".png", "image/png"), (".gif", "image/gif"),
   (".webp", "image/webp"), (".mov", "video/quicktime"),
   (".avi", "video/x-msvideo"), (".mkv", "video/x-matroska"),
   (".mp3", "audio/mpeg"), (".wav", "audio/wav"), (".m4a", "audio/mp4")]

/-- `ChunkInfo` (the `UploadedAt` timestamp is not modelled). -/
structure ChunkInfo where
  index : Nat
  size : Nat
  hash : String
  partNumber : Int
  etag : String
deriving Repr, DecidableEq

/-- An element of `CompletedParts` (`types.CompletedPart`). -/
structure CompletedPart where
  partNumber : Int
  eTag : String
deriving Repr, DecidableEq

/-- `UploadSession` (timestamps and the mutex are not modelled; the mutex only
serialises the operations we model as atomic steps). -/
structure UploadSession where
  sessionID : String
  emailID : String
  fileName : String
  s3Key : String
  fileExt : String
  contentType : String
  totalChunks : Nat
  chunkSize : Nat
  totalSize : Nat
  state : String
  receivedChunks : List (Nat × ChunkInfo)
  uploadID : String
  completedParts : List CompletedPart
deriving Repr, DecidableEq

/-- Calls issued to the object store, in order. -/
inductive StoreCall where
  | initMultipart (key contentType : String)
  | uploadPart (key uploadId : String) (partNumber : Int) (body : Bytes)
  | completeMultipart (key uploadId : String) (parts : List CompletedPart)
deriving Repr, DecidableEq

/-- The JSON responses produced by the handlers we model. -/
inductive HResp where
  /-- `respondError(w, status, msg)`. -/
  | err (status : Nat) (msg : String)
  /-- Success body of `/upload/init`. -/
  | initOk (sessionId s3Key uploadId : String)
  /-- Per-chunk success body of `/upload/chunk`. -/
  | chunkOk (duplicate : Bool) (chunkIndex received total : Nat)
  /-- Completion body (fresh or cached): `{ success, completed, s3_key, file_size }`. -/
  | finalOk (s3Key : String) (fileSize : Nat)
  /-- The `{ success, completed, status: "finalizing" }` acknowledgement. -/
  | finalizingAck
deriving Repr, DecidableEq

/-- `UploadSession.AddChunk`: duplicate with equal hash → `true`, nothing
changes; existing entry with a different hash → `false`, nothing changes (the
Go code only logs); new index → insert the `ChunkInfo`, append to
`CompletedParts`, return `false`. -/
def UploadSession.AddChunk (us : UploadSession) (index size : Nat)
    (hash : String) (partNumber : Int) (etag : String) :
    UploadSession × Bool :=
  match us.receivedChunks.lookup index with
  | some existing => if existing.hash = hash then (us, true) else (us, false)
  | none =>
    ({ us with
        receivedChunks := (index,
          { index := index, size := size, hash := hash,
            partNumber := partNumber, etag := etag }) :: us.receivedChunks,
        completedParts := us.completedParts ++
          [{ partNumber := partNumber, eTag := etag }] },
     false)

/-- `UploadSession.IsComplete`. -/
def UploadSession.IsComplete (us : UploadSession) : Bool :=
  us.receivedChunks.length == us.totalChunks

/-- The session manager's map from session id to session. -/
abbrev SessionTable := List (String × UploadSession)

/-- Replace the entry of `sid` (pointer mutation of the stored session). -/
def setSession (tbl : SessionTable) (sid : String) (s : UploadSession) :
    SessionTable :=
  tbl.map (fun p => if p.1 = sid then (sid, s) else p)

/-- `SessionManager.CreateSession`: reject an unsupported extension and an
oversize file, otherwise register a fresh `initialized` session. The
timestamp-derived `sessionID` and `s3Key` are passed in as parameters. -/
def CreateSession (tbl : SessionTable) (emailID fileName : String)
    (totalChunks chunkSize : Nat) (totalSize : Nat)
    (sessionID s3Key : String) :
    Except String (SessionTable × UploadSession) :=
  let ext := toLowerStr (filepathExt fileName)
  match SUPPORTED_EXTENSIONS.lookup ext with
  | none => .error ("unsupported file type: " ++ ext)
  | some contentType =>
    if totalSize > MAX_FILE_SIZE then
      .error "file size exceeds maximum"
    else
      let session : UploadSession :=
        { sessionID := sessionID, emailID := emailID, fileName := fileName,
          s3Key := s3Key, fileExt := ext, contentType := contentType,
          totalChunks := totalChunks, chunkSize := chunkSize,
          totalSize := totalSize, state := "initialized",
          receivedChunks := [], uploadID := "", completedParts := [] }
      .ok ((sessionID, session) :: tbl, session)

/-- `finalizeUpload`: cached replay when `completed`, acknowledgement when
`finalizing`, otherwise issue `CompleteMultipartUpload` and move to
`completed` on success or back to `initialized` on failure. -/
def finalizeUpload (session : UploadSession)
    (completeResult : Except String Unit) :
    UploadSession × HResp × List StoreCall :=
  if session.state = "completed" then
    (session, .finalOk session.s3Key session.totalSize, [])
  else if session.state = "finalizing" then
    (session, .finalizingAck, [])
  else
    let s1 := { session with state := "finalizing" }
    let call := StoreCall.completeMultipart s1.s3Key s1.uploadID
      s1.completedParts
    match completeResult with
    | .error e =>
      ({ s1 with state := "initialized" },
       .err 500 ("Failed to complete upload: " ++ e), [call])
    | .ok _ =>
      ({ s1 with state := "completed" },
       .finalOk s1.s3Key s1.totalSize, [call])

/-- `handleUploadChunk`. `chunkData` is the content of the `chunk` form file
(`none` models a form/read failure; the two Go read-error paths are folded
into one). `uploadPartResult` is the object store's answer to the
`UploadPart` call (`.ok etag`), `completeResult` the answer to the
`CompleteMultipartUpload` call should finalization be reached. Returns the
updated table, the response, and the store calls issued. -/
def handleUploadChunk (hashFn : Bytes → String) (tbl : SessionTable)
    (emailID sessionID chunkIndexStr : String) (chunkData : Option Bytes)
    (uploadPartResult : Except String String)
    (completeResult : Except String Unit) :
    SessionTable × HResp × List StoreCall :=
  if emailID = "" then (tbl, .err 400 "email_id is required", [])
  else
    let chunkIndex := goParseUint32 chunkIndexStr
    match tbl.lookup sessionID with
    | none => (tbl, .err 400 "Invalid session ID", [])
    | some session =>
      if session.emailID ≠ emailID then
        (tbl, .err 403 "Unauthorized: email_id mismatch", [])
      else
        match chunkData with
        | none => (tbl, .err 400 "Failed to read chunk", [])
        | some data =>
          let hashStr := hashFn data
          let partNumber : Int := toInt32 ((chunkIndex : Int) + 1)
          let call := StoreCall.uploadPart session.s3Key session.uploadID
            partNumber data
          match uploadPartResult with
          | .error e =>
            (tbl, .err 500 ("S3 upload failed: " ++ e), [call])
          | .ok etag =>
            let step := session.AddChunk chunkIndex (data.length % 2 ^ 32)
              hashStr partNumber etag
            let session2 := step.1
            let isDuplicate := step.2
            let received := session2.receivedChunks.length
            let total := session2.totalChunks
            if session2.IsComplete then
              let fin := finalizeUpload session2 completeResult
              (setSession tbl sessionID fin.1, fin.2.1, call :: fin.2.2)
            else
              (setSession tbl sessionID session2,
               .chunkOk isDuplicate chunkIndex received total, [call])

/-- `handleCompleteUpload` (body parsing is not modelled; the decoded fields
are passed directly). -/
def handleCompleteUpload (tbl : SessionTable) (emailID sessionID : String)
    (completeResult : Except String Unit) :
    SessionTable × HResp × List StoreCall :=
  match tbl.lookup sessionID with
  | none => (tbl, .err 400 "Invalid session ID", [])
  | some session =>
    if session.emailID ≠ emailID then
      (tbl, .err 403 "Unauthorized: email_id mismatch", [])
    else if ¬ session.IsComplete then
      (tbl, .err 400 "Upload not complete", [])
    else
      let fin := finalizeUpload session completeResult
      (setSession tbl sessionID fin.1, fin.2.1, fin.2.2)

/-- `handleInitUpload`: field checks, `CreateSession`, then
`CreateMultipartUpload` (answer passed as `initResult`; `.ok uploadId`). On
store failure the request errors with 500 but the session created by
`CreateSession` is left registered. -/
def handleInitUpload (tbl : SessionTable) (emailID fileName : String)
    (fileSize : Nat) (totalChunks chunkSize : Nat) (sessionID s3Key : String)
    (initResult : Except String String) :
    SessionTable × HResp × List StoreCall :=
  if emailID = "" then (tbl, .err 400 "email_id is required", [])
  else if fileName = "" then (tbl, .err 400 "filename is required", [])
  else
    match CreateSession tbl emailID fileName totalChunks chunkSize fileSize
      sessionID s3Key with
    | .error e => (tbl, .err 400 e, [])
    | .ok (tbl2, session) =>
      let call := StoreCall.initMultipart session.s3Key session.contentType
      match initResult with
      | .error e =>
        (tbl2, .err 500 ("Failed to initialize S3 upload: " ++ e), [call])
      | .ok uploadId =>
        let session2 := { session with uploadID := uploadId }
        (setSession tbl2 sessionID session2,
         .initOk session.sessionID session.s3Key uploadId, [call])

/-- Digit run at the front of a character list, interpreted in base 10. -/
def digitsToNat (ds : List Char) : Nat :=
  ds.foldl (fun a c => a * 10 + (c.toNat - 48)) 0

/-- One `%d` conversion of `fmt.Sscanf`: an optional sign followed by at
least one digit; `none` when the conversion fails. -/
def scanInt (cs : List Char) : Option (Int × List Char) :=
  match cs with
  | '-' :: rest =>
    let ds := rest.takeWhile Char.isDigit
    if ds = [] then none
    else some (-(Int.ofNat (digitsToNat ds)), rest.dropWhile Char.isDigit)
  | '+' :: rest =>
    let ds := rest.takeWhile Char.isDigit
    if ds = [] then none
    else some (Int.ofNat (digitsToNat ds), rest.dropWhile Char.isDigit)
  | _ =>
    let ds := cs.takeWhile Char.isDigit
    if ds = [] then none
    else some (Int.ofNat (digitsToNat ds), cs.dropWhile Char.isDigit)

/-- Match a literal run of characters, returning the remainder. -/
def dropLit : List Char → List Char → Option (List Char)
  | [], cs => some cs
  | _ :: _, [] => none
  | l :: ls, c :: cs => if c = l then dropLit ls cs else none

/-- `fmt.Sscanf(rangeHeader, "bytes=%d-%d", &start, &end)` with the error
ignored and `start`, `end` zero-initialised: scanning stops at the first
failing conversion and leaves the remaining variables at 0. (Interior
whitespace skipping of `%d` is not modelled; no claim exercises it.) -/
def parseRangeHeader (s : String) : Int × Int :=
  match dropLit "bytes=".toList s.toList with
  | none => (0, 0)
  | some rest =>
    match scanInt rest with
    | none => (0, 0)
    | some (a, rest2) =>
      match rest2 with
      | '-' :: rest3 =>
        match scanInt rest3 with
        | none => (a, 0)
        | some (b, _) => (a, b)
      | _ => (a, 0)

/-- The object store's `GetObject` with `Range: bytes=a-b` on a stored object,
for an in-bounds inclusive range: bytes `a..b` of the object. -/
def get_range (obj : Bytes) (a b : Int) : Bytes :=
  (obj.drop a.toNat).take (b - a + 1).toNat

/-- The response assembled by `handleStreamFile`. -/
structure StreamResp where
  status : Nat
  contentRange : Option String
  contentLength : Int
  body : Bytes
deriving Repr, DecidableEq

/-- `handleStreamFile` from the point where the object is known to exist
(token validation and content-type resolution feed only headers no claim
mentions): with a non-empty `Range` header, parse `bytes=%d-%d`, replace an
`end` of 0 or `≥ size` by `size - 1`, and respond 206 with `Content-Range`,
`Content-Length = end - start + 1` and the ranged bytes; without one,
respond 200 with the whole object. -/
def handleStreamFile (obj : Bytes) (rangeHeader : String) : StreamResp :=
  let fileSize : Int := (obj.length : Int)
  if rangeHeader ≠ "" then
    let r := parseRangeHeader rangeHeader
    let start := r.1
    let e := if r.2 = 0 ∨ r.2 ≥ fileSize then fileSize - 1 else r.2
    { status := 206,
      contentRange := some ("bytes " ++ toString start ++ "-" ++ toString e
        ++ "/" ++ toString fileSize),
      contentLength := e - start + 1,
      body := get_range obj start e }
  else
    { status := 200, contentRange := none, contentLength := fileSize,
      body := obj }

/-!  Concrete fixtures used by witnesses and counterexamples. -/

/-- A concrete stand-in for SHA-256 in closed evaluations (injective on the
tiny payloads used below). -/
def demoHash : Bytes → String :=
  fun l => toString (l.foldl (fun a b => a * 256 + b + 1) 1)

/-- The chunk-0 record of `demoSession`: payload `[1, 2]`. -/
def demoInfo : ChunkInfo :=
  { index := 0, size := 2, hash := demoHash [1, 2], partNumber := 1,
    etag := "e1" }

/-- A mid-upload session: 1 of 2 chunks received. -/
def demoSession : UploadSession :=
  { sessionID := "s1", emailID := "a", fileName := "f.mp4", s3Key := "k",
    fileExt := ".mp4", contentType := "video/mp4", totalChunks := 2,
    chunkSize := 5242880, totalSize := 7, state := "uploading",
    receivedChunks := [(0, demoInfo)], uploadID := "u",
    completedParts := [{ partNumber := 1, eTag := "e1" }] }

/-- A fresh one-chunk session about to receive its only chunk. -/
def oneChunkSession : UploadSession :=
  { sessionID := "s1", emailID := "a", fileName := "f.mp4", s3Key := "k",
    fileExt := ".mp4", contentType := "video/mp4", totalChunks := 1,
    chunkSize := 5242880, totalSize := 1, state := "initialized",
    receivedChunks := [], uploadID := "u", completedParts := [] }

/-- A completed session (used to exercise cached finalize replay). -/
def doneSession : UploadSession :=
  { demoSession with
    state := "completed"
    receivedChunks := [(0, demoInfo),
      (1, { index := 1, size := 2, hash := demoHash [3, 4], partNumber := 2,
            etag := "e2" })]
    completedParts := [{ partNumber := 1, eTag := "e1" },
                       { partNumber := 2, eTag := "e2" }] }

/-- The session produced by uploading chunk 0 (payload `[1]`) to
`oneChunkSession` and finalizing. -/
def oneChunkDone : UploadSession :=
  { oneChunkSession with
    state := "completed"
    receivedChunks := [(0, { index := 0, size := 1, hash := demoHash [1],
                             partNumber := 1, etag := "e1" })]
    completedParts := [{ partNumber := 1, eTag := "e1" }] }

/-- The session produced by uploading chunk index 1 (payload `[1]`) to the
one-chunk `oneChunkSession` and finalizing: completed, but with part number
2 only. -/
def oneChunkSkewed : UploadSession :=
  { oneChunkSession with
    state := "completed"
    receivedChunks := [(1, { index := 1, size := 1, hash := demoHash [1],
                             partNumber := 2, etag := "e1" })]
    completedParts := [{ partNumber := 2, eTag := "e1" }] }

/-- Part-number bookkeeping invariant: every chunk stored under key `k`
carries `part_number = int32(k + 1)` (the Go code computes
`int32(chunkIndex) + 1` in wrapping 32-bit arithmetic). -/
def partInv (s : UploadSession) : Prop :=
  ∀ k info, s.receivedChunks.lookup k = some info →
    info.partNumber = toInt32 ((k : Int) + 1)

/-- Sessions reachable through the modelled server operations: freshly
created by `CreateSession`, given their upload id by `handleInitUpload`, or
the session stored under the requested id after a `/upload/chunk` or
`/upload/complete` request. -/
inductive Reachable (hashFn : Bytes → String) : UploadSession → Prop where
  | created (tbl : SessionTable) (emailID fileName : String)
      (totalChunks chunkSize totalSize : Nat) (sessionID s3Key : String)
      (tbl2 : SessionTable) (s : UploadSession) :
      CreateSession tbl emailID fileName totalChunks chunkSize totalSize
        sessionID s3Key = .ok (tbl2, s) →
      Reachable hashFn s
  | initDone (s : UploadSession) (uploadId : String) :
      Reachable hashFn s → Reachable hashFn { s with uploadID := uploadId }
  | chunkStep (tbl : SessionTable) (emailID sessionID chunkIndexStr : String)
      (chunkData : Option Bytes) (uploadPartResult : Except String String)
      (completeResult : Except String Unit) (s sNext : UploadSession) :
      Reachable hashFn s → tbl.lookup sessionID = some s →
      (handleUploadChunk hashFn tbl emailID sessionID chunkIndexStr chunkData
        uploadPartResult completeResult).1.lookup sessionID = some sNext →
      Reachable hashFn sNext
  | completeStep (tbl : SessionTable) (emailID sessionID : String)
      (completeResult : Except String Unit) (s sNext : UploadSession) :
      Reachable hashFn s → tbl.lookup sessionID = some s →
      (handleCompleteUpload tbl emailID sessionID
        completeResult).1.lookup sessionID = some sNext →
      Reachable hashFn sNext

/-- The session produced by the `AddChunk` step of `handleUploadChunk` when
the store accepted the part with ETag `etag`. -/
def chunkStepSession (hashFn : Bytes → String) (s : UploadSession)
    (chunkIndexStr : String) (d : Bytes) (etag : String) : UploadSession :=
  (s.AddChunk (goParseUint32 chunkIndexStr) (d.length % 2 ^ 32) (hashFn d)
    (toInt32 ((goParseUint32 chunkIndexStr : Int) + 1)) etag).1


/-! Section: Helper lemmas -/

theorem lookup_setSession {tbl : SessionTable} {sid : String}
    {s : UploadSession} (x : UploadSession) (h : tbl.lookup sid = some s) :
    (setSession tbl sid x).lookup sid = some x := by
  induction tbl with
  | nil => simp [List.lookup] at h
  | cons p rest ih =>
    obtain ⟨k, v⟩ := p
    by_cases hk : k = sid
    · subst hk
      simp only [setSession, List.map]
      simp [List.lookup]
    · have hb : (sid == k) = false :=
        beq_eq_false_iff_ne.mpr (fun hc => hk hc.symm)
      simp only [setSession, List.map] at h ⊢
      rw [if_neg hk]
      simp only [List.lookup, hb] at h ⊢
      exact ih h

theorem uploadChunk_lookup_cases
    (hashFn : Bytes → String) (tbl : SessionTable)
    (email sid cis : String) (data : Option Bytes)
    (upr : Except String String) (cr : Except String Unit)
    (s sN : UploadSession)
    (h1 : tbl.lookup sid = some s)
    (h2 : (handleUploadChunk hashFn tbl email sid cis data upr
      cr).1.lookup sid = some sN) :
    sN = s ∨
    ∃ d etag, data = some d ∧ upr = .ok etag ∧
      ((sN = chunkStepSession hashFn s cis d etag ∧
        (chunkStepSession hashFn s cis d etag).IsComplete = false) ∨
       (sN = (finalizeUpload (chunkStepSession hashFn s cis d etag)
          cr).1 ∧
        (chunkStepSession hashFn s cis d etag).IsComplete = true)) := by
  unfold handleUploadChunk at h2
  by_cases he : email = ""
  · rw [if_pos he] at h2
    dsimp only at h2
    rw [h1] at h2
    exact Or.inl (Option.some.inj h2).symm
  · rw [if_neg he] at h2
    dsimp only at h2
    rw [h1] at h2
    dsimp only at h2
    by_cases hm : s.emailID ≠ email
    · rw [if_pos hm] at h2
      dsimp only at h2
      rw [h1] at h2
      exact Or.inl (Option.some.inj h2).symm
    · rw [if_neg hm] at h2
      cases data with
      | none =>
        dsimp only at h2
        rw [h1] at h2
        exact Or.inl (Option.some.inj h2).symm
      | some d =>
        cases upr with
        | error e =>
          dsimp only at h2
          rw [h1] at h2
          exact Or.inl (Option.some.inj h2).symm
        | ok etag =>
          dsimp only at h2
          by_cases hc : (s.AddChunk (goParseUint32 cis)
              (d.length % 2 ^ 32) (hashFn d)
              (toInt32 ((goParseUint32 cis : Int) + 1))
              etag).1.IsComplete = true
          · rw [if_pos hc] at h2
            dsimp only at h2
            rw [lookup_setSession _ h1] at h2
            exact Or.inr ⟨d, etag, rfl, rfl,
              Or.inr ⟨(Option.some.inj h2).symm, hc⟩⟩
          · rw [if_neg hc] at h2
            dsimp only at h2
            rw [lookup_setSession _ h1] at h2
            exact Or.inr ⟨d, etag, rfl, rfl,
              Or.inl ⟨(Option.some.inj h2).symm,
                Bool.not_eq_true _ ▸ (eq_false_of_ne_true hc)⟩⟩

theorem completeUpload_lookup_cases
    (tbl : SessionTable) (email sid : String) (cr : Except String Unit)
    (s sN : UploadSession)
    (h1 : tbl.lookup sid = some s)
    (h2 : (handleCompleteUpload tbl email sid cr).1.lookup sid = some sN) :
    sN = s ∨ (sN = (finalizeUpload s cr).1 ∧ s.IsComplete = true) := by
  unfold handleCompleteUpload at h2
  rw [h1] at h2
  dsimp only at h2
  by_cases hm : s.emailID ≠ email
  · rw [if_pos hm] at h2
    dsimp only at h2
    rw [h1] at h2
    exact Or.inl (Option.some.inj h2).symm
  · rw [if_neg hm] at h2
    by_cases hcmp : ¬ s.IsComplete = true
    · rw [if_pos hcmp] at h2
      dsimp only at h2
      rw [h1] at h2
      exact Or.inl (Option.some.inj h2).symm
    · rw [if_neg hcmp] at h2
      dsimp only at h2
      rw [lookup_setSession _ h1] at h2
      exact Or.inr ⟨(Option.some.inj h2).symm, of_not_not hcmp⟩

theorem AddChunk_state (us : UploadSession) (idx sz : Nat)
    (hsh : String) (pn : Int) (etag : String) :
    ((us.AddChunk idx sz hsh pn etag).1).state = us.state := by
  unfold UploadSession.AddChunk
  cases hl : us.receivedChunks.lookup idx with
  | none => rfl
  | some e =>
    dsimp only
    split <;> rfl

theorem AddChunk_totalChunks (us : UploadSession) (idx sz : Nat)
    (hsh : String) (pn : Int) (etag : String) :
    ((us.AddChunk idx sz hsh pn etag).1).totalChunks = us.totalChunks := by
  unfold UploadSession.AddChunk
  cases hl : us.receivedChunks.lookup idx with
  | none => rfl
  | some e =>
    dsimp only
    split <;> rfl

theorem finalize_receivedChunks (s : UploadSession)
    (r : Except String Unit) :
    (finalizeUpload s r).1.receivedChunks = s.receivedChunks := by
  unfold finalizeUpload
  split
  · rfl
  · split
    · rfl
    · cases r <;> rfl

theorem finalize_totalChunks (s : UploadSession) (r : Except String Unit) :
    (finalizeUpload s r).1.totalChunks = s.totalChunks := by
  unfold finalizeUpload
  split
  · rfl
  · split
    · rfl
    · cases r <;> rfl

theorem AddChunk_partInv (us : UploadSession) (idx sz : Nat)
    (hsh etag : String) (hInv : partInv us) :
    partInv (us.AddChunk idx sz hsh (toInt32 ((idx : Int) + 1)) etag).1 := by
  unfold UploadSession.AddChunk
  cases hl : us.receivedChunks.lookup idx with
  | some e =>
    dsimp only
    split
    · exact hInv
    · exact hInv
  | none =>
    dsimp only
    intro k info hk
    by_cases hki : k = idx
    · subst hki
      simp [List.lookup] at hk
      rw [← hk]
    · have hb : (k == idx) = false := beq_eq_false_iff_ne.mpr hki
      simp only [List.lookup, hb] at hk
      exact hInv k info hk

theorem IsComplete_length {s : UploadSession} (h : s.IsComplete = true) :
    s.receivedChunks.length = s.totalChunks := by
  simpa [UploadSession.IsComplete] using h

theorem finalize_completed (s : UploadSession) (r : Except String Unit)
    (h : s.state = "completed") :
    finalizeUpload s r = (s, .finalOk s.s3Key s.totalSize, []) := by
  unfold finalizeUpload
  rw [if_pos h]


/-! Section: Claim C4 -/

/-- Claim C4: once a session is `completed`, every later finalize — whether
reached through `/upload/chunk` on the (re-sent) last part or through
`/upload/complete` — returns the cached `{ s3_key, file_size }` body and
issues no further `complete_multipart` store call, and a caller that
observes `finalizing` receives an acknowledgement with no store call. -/
theorem finalize_replay_is_idempotent :
    (∀ (s : UploadSession) (r : Except String Unit),
      s.state = "completed" →
      finalizeUpload s r = (s, .finalOk s.s3Key s.totalSize, [])) ∧
    (∀ (s : UploadSession) (r : Except String Unit),
      s.state = "finalizing" →
      finalizeUpload s r = (s, .finalizingAck, [])) ∧
    (∀ (tbl : SessionTable) (email sid : String) (cr : Except String Unit)
      (s : UploadSession),
      tbl.lookup sid = some s → s.emailID = email → s.IsComplete = true →
      s.state = "completed" →
      handleCompleteUpload tbl email sid cr =
        (setSession tbl sid s, .finalOk s.s3Key s.totalSize, [])) ∧
    (∀ (hashFn : Bytes → String) (tbl : SessionTable)
      (email sid cis : String) (d : Bytes) (etag : String)
      (cr : Except String Unit) (s : UploadSession) (info : ChunkInfo),
      tbl.lookup sid = some s → email ≠ "" → s.emailID = email →
      s.receivedChunks.lookup (goParseUint32 cis) = some info →
      info.hash = hashFn d → s.IsComplete = true → s.state = "completed" →
      handleUploadChunk hashFn tbl email sid cis (some d) (.ok etag) cr =
        (setSession tbl sid s, .finalOk s.s3Key s.totalSize,
         [.uploadPart s.s3Key s.uploadID
            (toInt32 ((goParseUint32 cis : Int) + 1)) d])) := by
  refine ⟨finalize_completed, ?_, ?_, ?_⟩
  · intro s r h
    unfold finalizeUpload
    rw [if_neg (by rw [h]; decide), if_pos h]
  · intro tbl email sid cr s hl hm hcmp hst
    unfold handleCompleteUpload
    rw [hl]
    dsimp only
    rw [if_neg (by simp [hm]), if_neg (by simp [hcmp])]
    rw [finalize_completed s cr hst]
  · intro hashFn tbl email sid cis d etag cr s info hl he hm hinfo hhash
      hcmp hst
    unfold handleUploadChunk
    rw [if_neg he, hl]
    dsimp only
    rw [if_neg (by simp [hm])]
    unfold UploadSession.AddChunk
    rw [hinfo]
    dsimp only
    rw [if_pos hhash]
    rw [if_pos hcmp]
    dsimp only
    rw [finalize_completed s cr hst]

/-- Witness for C4 at the concrete completed session `doneSession`: the
cached success is returned even when the store answer would be an error,
because no store call is made. -/
theorem finalize_replay_is_idempotent_witness :
    (doneSession.state = "completed" ∧
     finalizeUpload doneSession (.error "x") =
       (doneSession, .finalOk "k" 7, [])) ∧
    ([("s1", doneSession)].lookup "s1" = some doneSession ∧
     handleCompleteUpload [("s1", doneSession)] "a" "s1" (.error "x") =
       (setSession [("s1", doneSession)] "s1" doneSession,
        .finalOk "k" 7, [])) :=
  ⟨⟨by decide,
    finalize_replay_is_idempotent.1 doneSession (.error "x") (by decide)⟩,
   ⟨by decide,
    finalize_replay_is_idempotent.2.2.1 [("s1", doneSession)] "a" "s1"
      (.error "x") doneSession (by decide) (by decide) (by decide)
      (by decide)⟩⟩

/-! Section: Claim C5 -/

/-- Claim C5: when `CompleteMultipartUpload` fails during finalize, the
session state is set back to `initialized` (not a terminal failure state)
and the store error is surfaced as a 500 response, after exactly the one
`complete_multipart` call. -/
theorem finalize_failure_reverts_to_initialized (s : UploadSession)
    (e : String) (h1 : s.state ≠ "completed")
    (h2 : s.state ≠ "finalizing") :
    finalizeUpload s (.error e) =
      ({ s with state := "initialized" },
       .err 500 ("Failed to complete upload: " ++ e),
       [.completeMultipart s.s3Key s.uploadID s.completedParts]) := by
  unfold finalizeUpload
  rw [if_neg h1, if_neg h2]

/-- Witness for C5 at the concrete mid-upload session `demoSession`. -/
theorem finalize_failure_reverts_to_initialized_witness :
    demoSession.state ≠ "completed" ∧ demoSession.state ≠ "finalizing" ∧
    finalizeUpload demoSession (.error "boom") =
      ({ demoSession with state := "initialized" },
       .err 500 ("Failed to complete upload: " ++ "boom"),
       [.completeMultipart demoSession.s3Key demoSession.uploadID
          demoSession.completedParts]) :=
  ⟨by decide, by decide,
   finalize_failure_reverts_to_initialized demoSession "boom" (by decide)
     (by decide)⟩


/-! Section: Claim C1 -/

/-- Claim C1 (amended): re-sending a chunk whose hash equals the stored one
returns `duplicate: true` and leaves the session unchanged, but — because
`handleUploadChunk` calls `UploadPart` before the duplicate check — every
such retry issues one more `upload_part` call for that index, so `n`
retries produce `n` extra calls rather than zero. (Stated for a session
that is not yet complete; a complete one proceeds to the cached finalize.) -/
theorem uploadChunk_duplicate_reuploads_part
    (hashFn : Bytes → String) (tbl : SessionTable)
    (email sid cis : String) (d : Bytes) (etag : String)
    (cr : Except String Unit) (s : UploadSession) (info : ChunkInfo)
    (hl : tbl.lookup sid = some s) (he : email ≠ "")
    (hm : s.emailID = email)
    (hinfo : s.receivedChunks.lookup (goParseUint32 cis) = some info)
    (hhash : info.hash = hashFn d)
    (hcmp : s.IsComplete = false) :
    handleUploadChunk hashFn tbl email sid cis (some d) (.ok etag) cr =
      (setSession tbl sid s,
       .chunkOk true (goParseUint32 cis) s.receivedChunks.length
         s.totalChunks,
       [.uploadPart s.s3Key s.uploadID
          (toInt32 ((goParseUint32 cis : Int) + 1)) d]) := by
  unfold handleUploadChunk
  rw [if_neg he, hl]
  dsimp only
  rw [if_neg (by simp [hm])]
  unfold UploadSession.AddChunk
  rw [hinfo]
  dsimp only
  rw [if_pos hhash]
  rw [if_neg (by simp [hcmp])]

/-- Counterexample to C1 as stated: a retry of chunk 0 with identical bytes
does issue an `upload_part` call for that index (part number 1), so across
retries the number of `upload_part` calls is not one. -/
theorem uploadChunk_duplicate_claim_cex :
    (handleUploadChunk demoHash [("s1", demoSession)] "a" "s1" "0"
      (some [1, 2]) (.ok "e2") (.ok ())).2.2 =
      [.uploadPart "k" "u" 1 [1, 2]] ∧
    (handleUploadChunk demoHash [("s1", demoSession)] "a" "s1" "0"
      (some [1, 2]) (.ok "e2") (.ok ())).2.1 = .chunkOk true 0 1 2 := by
  decide

/-- Witness for the amended C1 at the concrete session `demoSession`. -/
theorem uploadChunk_duplicate_reuploads_part_witness :
    ([("s1", demoSession)].lookup "s1" = some demoSession ∧
     demoSession.receivedChunks.lookup 0 = some demoInfo ∧
     demoInfo.hash = demoHash [1, 2] ∧ demoSession.IsComplete = false) ∧
    handleUploadChunk demoHash [("s1", demoSession)] "a" "s1" "0"
      (some [1, 2]) (.ok "e2") (.ok ()) =
      (setSession [("s1", demoSession)] "s1" demoSession,
       .chunkOk true 0 1 2, [.uploadPart "k" "u" 1 [1, 2]]) :=
  ⟨⟨by decide, by decide, by decide, by decide⟩,
   uploadChunk_duplicate_reuploads_part demoHash [("s1", demoSession)]
     "a" "s1" "0" [1, 2] "e2" (.ok ()) demoSession demoInfo (by decide)
     (by decide) (by decide) (by decide) (by decide) (by decide)⟩

/-! Section: Claim C2 -/

/-- Claim C2 (code bug, evaluated at the failing input): chunk 0 was stored
with the hash of `[1, 2]`; re-sending index 0 with different bytes `[9, 9]`
does not produce a `HashMismatch` error — the handler replies
200 `{ duplicate: false }` — and a second `upload_part` for part number 1
is issued with the new bytes, while the stored `ChunkInfo` (and hence the
session) is left unchanged. -/
theorem hashMismatch_is_silently_accepted :
    (handleUploadChunk demoHash [("s1", demoSession)] "a" "s1" "0"
      (some [9, 9]) (.ok "e2") (.ok ())).2.1 = .chunkOk false 0 1 2 ∧
    (handleUploadChunk demoHash [("s1", demoSession)] "a" "s1" "0"
      (some [9, 9]) (.ok "e2") (.ok ())).2.2 =
      [.uploadPart "k" "u" 1 [9, 9]] ∧
    (handleUploadChunk demoHash [("s1", demoSession)] "a" "s1" "0"
      (some [9, 9]) (.ok "e2") (.ok ())).1.lookup "s1" =
      some demoSession ∧
    demoHash [9, 9] ≠ demoInfo.hash := by
  decide

/-! Section: Claim C3 -/

/-- Claim C3 (amended): every reachable session satisfies the per-key law
`part_number = int32(k + 1)`, and whenever a session transitions into
`completed` (through `/upload/chunk` or `/upload/complete`) it satisfies
`|received| = total_chunks` at that moment. The part numbers of a completed
session need not cover `{1..total_chunks}`, because chunk indices are never
checked against `total_chunks` (see the counterexample). -/
theorem completed_sessions_partnumber_invariant :
    (∀ (hashFn : Bytes → String) (s : UploadSession),
      Reachable hashFn s → partInv s) ∧
    (∀ (hashFn : Bytes → String) (tbl : SessionTable)
      (email sid cis : String) (data : Option Bytes)
      (upr : Except String String) (cr : Except String Unit)
      (s sN : UploadSession),
      tbl.lookup sid = some s → s.state ≠ "completed" →
      (handleUploadChunk hashFn tbl email sid cis data upr
        cr).1.lookup sid = some sN →
      sN.state = "completed" →
      sN.receivedChunks.length = sN.totalChunks) ∧
    (∀ (tbl : SessionTable) (email sid : String)
      (cr : Except String Unit) (s sN : UploadSession),
      tbl.lookup sid = some s → s.state ≠ "completed" →
      (handleCompleteUpload tbl email sid cr).1.lookup sid = some sN →
      sN.state = "completed" →
      sN.receivedChunks.length = sN.totalChunks) := by
  refine ⟨?_, ?_, ?_⟩
  · intro hashFn s h
    induction h with
    | created tbl email fn tc cs ts sid key tbl2 s hok =>
      unfold CreateSession at hok
      dsimp only at hok
      cases hsup : SUPPORTED_EXTENSIONS.lookup (toLowerStr (filepathExt fn))
        with
      | none =>
        rw [hsup] at hok
        exact absurd hok (by simp)
      | some ct =>
        rw [hsup] at hok
        dsimp only at hok
        by_cases hsz : ts > MAX_FILE_SIZE
        · rw [if_pos hsz] at hok
          exact absurd hok (by simp)
        · rw [if_neg hsz] at hok
          have hpair := Except.ok.inj hok
          have hs := congrArg Prod.snd hpair
          dsimp only at hs
          intro k info hk
          rw [← hs] at hk
          simp [List.lookup] at hk
    | initDone s uid hr ih =>
      intro k info hk
      exact ih k info hk
    | chunkStep tbl email sid cis data upr cr s sN hr h1 h2 ih =>
      rcases uploadChunk_lookup_cases _ _ _ _ _ _ _ _ _ _ h1 h2 with
        heq | ⟨d, etag, hd, hu, hcase⟩
      · rwa [heq]
      · rcases hcase with ⟨heq, _⟩ | ⟨heq, _⟩
        · rw [heq]
          show partInv (s.AddChunk (goParseUint32 cis) (d.length % 2 ^ 32)
            (hashFn d) (toInt32 ((goParseUint32 cis : Int) + 1)) etag).1
          exact AddChunk_partInv s _ _ _ _ ih
        · rw [heq]
          intro k info hk
          rw [finalize_receivedChunks] at hk
          have : partInv (s.AddChunk (goParseUint32 cis)
              (d.length % 2 ^ 32) (hashFn d)
              (toInt32 ((goParseUint32 cis : Int) + 1)) etag).1 :=
            AddChunk_partInv s _ _ _ _ ih
          exact this k info hk
    | completeStep tbl email sid cr s sN hr h1 h2 ih =>
      rcases completeUpload_lookup_cases _ _ _ _ _ _ h1 h2 with
        heq | ⟨heq, _⟩
      · rwa [heq]
      · rw [heq]
        intro k info hk
        rw [finalize_receivedChunks] at hk
        exact ih k info hk
  · intro hashFn tbl email sid cis data upr cr s sN h1 hne h2 hc
    rcases uploadChunk_lookup_cases _ _ _ _ _ _ _ _ _ _ h1 h2 with
      heq | ⟨d, etag, hd, hu, hcase⟩
    · rw [heq] at hc
      exact absurd hc hne
    · rcases hcase with ⟨heq, hic⟩ | ⟨heq, hic⟩
      · rw [heq] at hc
        have hstate : (chunkStepSession hashFn s cis d etag).state =
            s.state := AddChunk_state s _ _ _ _ _
        rw [hstate] at hc
        exact absurd hc hne
      · rw [heq, finalize_receivedChunks, finalize_totalChunks]
        exact IsComplete_length hic
  · intro tbl email sid cr s sN h1 hne h2 hc
    rcases completeUpload_lookup_cases _ _ _ _ _ _ h1 h2 with
      heq | ⟨heq, hic⟩
    · rw [heq] at hc
      exact absurd hc hne
    · rw [heq, finalize_receivedChunks, finalize_totalChunks]
      exact IsComplete_length hic

/-- Counterexample to C3 as stated: uploading chunk index 1 to a one-chunk
session completes it (the index is never range-checked), leaving a
completed session whose only part number is 2, so part number 1 does not
appear in `completed_parts` and the stored part number exceeds
`total_chunks`. -/
theorem completed_parts_cover_claim_cex :
    (handleUploadChunk demoHash [("s1", oneChunkSession)] "a" "s1" "1"
      (some [1]) (.ok "e1") (.ok ())).1.lookup "s1" =
      some oneChunkSkewed ∧
    oneChunkSkewed.state = "completed" ∧
    oneChunkSkewed.totalChunks = 1 ∧
    (¬ ∃ p ∈ oneChunkSkewed.completedParts, p.partNumber = 1) ∧
    oneChunkSkewed.receivedChunks.lookup 1 =
      some { index := 1, size := 1, hash := demoHash [1], partNumber := 2,
             etag := "e1" } := by
  decide

/-- Witness for the amended C3: the one-chunk session transitions into
`completed` with `|received| = total_chunks`. -/
theorem completed_sessions_partnumber_invariant_witness :
    ([("s1", oneChunkSession)].lookup "s1" = some oneChunkSession ∧
     oneChunkSession.state ≠ "completed" ∧
     (handleUploadChunk demoHash [("s1", oneChunkSession)] "a" "s1" "0"
       (some [1]) (.ok "e1") (.ok ())).1.lookup "s1" =
       some oneChunkDone ∧
     oneChunkDone.state = "completed") ∧
    oneChunkDone.receivedChunks.length = oneChunkDone.totalChunks :=
  ⟨⟨by decide, by decide, by decide, by decide⟩,
   completed_sessions_partnumber_invariant.2.1 demoHash
     [("s1", oneChunkSession)] "a" "s1" "0" (some [1]) (.ok "e1") (.ok ())
     oneChunkSession oneChunkDone (by decide) (by decide) (by decide)
     (by decide)⟩


/-! Section: Claim C6 -/

/-- Claim C6 (amended): for a parsed `Range: bytes=a-b` header with
`0 ≤ a ≤ b < size` and `b ≥ 1`, `handleStreamFile` responds 206 with
`Content-Range: bytes a-b/size`, `Content-Length = b - a + 1` and body
`get_range(obj, a, b)`. An explicit `b = 0` cannot be told apart from an
absent end value by the `Sscanf`-style parse, so it too is replaced by
`size - 1` (not only an empty or too-large `b`); see the counterexample. -/
theorem stream_range_contract (obj : Bytes) (hdr : String) (a b : Int)
    (hp : parseRangeHeader hdr = (a, b)) (h0 : hdr ≠ "") (ha : 0 ≤ a)
    (hab : a ≤ b) (hb1 : 1 ≤ b) (hbs : b < (obj.length : Int)) :
    handleStreamFile obj hdr =
      { status := 206,
        contentRange := some ("bytes " ++ toString a ++ "-" ++ toString b
          ++ "/" ++ toString ((obj.length : Int))),
        contentLength := b - a + 1,
        body := get_range obj a b } := by
  unfold handleStreamFile
  rw [if_pos h0, hp]
  dsimp only
  rw [if_neg (by omega)]

/-- Counterexample to C6 as stated: `bytes=0-0` satisfies
`0 ≤ a ≤ b < size` for a 2-byte object, but the server replaces the 0 end
with `size - 1` and streams the whole object: `Content-Length` is 2, not
`b - a + 1 = 1`. -/
theorem stream_range_claim_cex :
    parseRangeHeader "bytes=0-0" = (0, 0) ∧
    ((0 : Int) ≤ 0 ∧ (0 : Int) < ((2 : Nat) : Int)) ∧
    (handleStreamFile [7, 8] "bytes=0-0").contentLength = 2 ∧
    (handleStreamFile [7, 8] "bytes=0-0").contentLength ≠ 0 - 0 + 1 ∧
    (handleStreamFile [7, 8] "bytes=0-0").body = [7, 8] := by
  decide

/-- Witness for the amended C6 on a concrete 4-byte object. -/
theorem stream_range_contract_witness :
    (parseRangeHeader "bytes=1-2" = (1, 2) ∧ (1 : Int) ≤ 2 ∧
     (2 : Int) < ((4 : Nat) : Int)) ∧
    handleStreamFile [5, 6, 7, 8] "bytes=1-2" =
      { status := 206,
        contentRange := some "bytes 1-2/4",
        contentLength := 2,
        body := [6, 7] } :=
  ⟨⟨by decide, by decide, by decide⟩,
   stream_range_contract [5, 6, 7, 8] "bytes=1-2" 1 2 (by decide)
     (by decide) (by decide) (by decide) (by decide) (by decide)⟩

/-! Section: Claim C7 -/

/-- Claim C7 (amended): `handleInitUpload` validates only that `email_id`
and `filename` are non-empty, that the lower-cased extension is in the
allowlist, and that `file_size ≤ MAX_FILE_SIZE`. Neither `chunk_size` (the
declared `MIN_CHUNK_SIZE`/`MAX_CHUNK_SIZE` bounds are never consulted) nor
`total_chunks ≥ 1` is checked: `CreateSession` succeeds for every
`chunk_size` and `total_chunks`, and the handler then proceeds to the
store call. -/
theorem initUpload_validates_only_basic_fields :
    (∀ (tbl tbl2 : SessionTable) (email fn : String)
      (fileSize tc cs : Nat) (sid key uploadId : String)
      (sess : UploadSession),
      email ≠ "" → fn ≠ "" →
      CreateSession tbl email fn tc cs fileSize sid key =
        .ok (tbl2, sess) →
      handleInitUpload tbl email fn fileSize tc cs sid key
        (.ok uploadId) =
        (setSession tbl2 sid { sess with uploadID := uploadId },
         .initOk sess.sessionID sess.s3Key uploadId,
         [.initMultipart sess.s3Key sess.contentType])) ∧
    (∀ (tbl : SessionTable) (email fn : String) (fileSize tc cs : Nat)
      (sid key ct : String),
      SUPPORTED_EXTENSIONS.lookup (toLowerStr (filepathExt fn)) =
        some ct →
      fileSize ≤ MAX_FILE_SIZE →
      CreateSession tbl email fn tc cs fileSize sid key =
        .ok ((sid,
          { sessionID := sid, emailID := email, fileName := fn,
            s3Key := key, fileExt := toLowerStr (filepathExt fn),
            contentType := ct, totalChunks := tc, chunkSize := cs,
            totalSize := fileSize, state := "initialized",
            receivedChunks := [], uploadID := "",
            completedParts := [] }) :: tbl,
          { sessionID := sid, emailID := email, fileName := fn,
            s3Key := key, fileExt := toLowerStr (filepathExt fn),
            contentType := ct, totalChunks := tc, chunkSize := cs,
            totalSize := fileSize, state := "initialized",
            receivedChunks := [], uploadID := "",
            completedParts := [] })) := by
  constructor
  · intro tbl tbl2 email fn fileSize tc cs sid key uploadId sess he hf hcs
    unfold handleInitUpload
    rw [if_neg he, if_neg hf, hcs]
  · intro tbl email fn fileSize tc cs sid key ct hext hsz
    unfold CreateSession
    dsimp only
    rw [hext]
    dsimp only
    rw [if_neg (not_lt.mpr hsz)]

/-- Counterexample to C7 as stated: `chunk_size = 1` (below `MIN_CHUNK_SIZE`)
and `total_chunks = 0` are accepted — `/upload/init` answers with the
success body, not a 400-class error. -/
theorem initUpload_chunk_bounds_claim_cex :
    1 < MIN_CHUNK_SIZE ∧ (0 : Nat) < 1 ∧
    (handleInitUpload [] "a" "f.mp4" 10 0 1 "sid1" "key1"
      (.ok "uid")).2.1 = .initOk "sid1" "key1" "uid" := by
  decide

/-- Witness for the amended C7: a session is created with `chunk_size = 1`
and `total_chunks = 0`. -/
theorem initUpload_validates_only_basic_fields_witness :
    (SUPPORTED_EXTENSIONS.lookup (toLowerStr (filepathExt "f.mp4")) =
      some "video/mp4" ∧ (10 : Nat) ≤ MAX_FILE_SIZE) ∧
    CreateSession [] "a" "f.mp4" 0 1 10 "sid1" "key1" =
      .ok ([("sid1",
        { sessionID := "sid1", emailID := "a", fileName := "f.mp4",
          s3Key := "key1", fileExt := toLowerStr (filepathExt "f.mp4"),
          contentType := "video/mp4", totalChunks := 0, chunkSize := 1,
          totalSize := 10, state := "initialized", receivedChunks := [],
          uploadID := "", completedParts := [] })],
        { sessionID := "sid1", emailID := "a", fileName := "f.mp4",
          s3Key := "key1", fileExt := toLowerStr (filepathExt "f.mp4"),
          contentType := "video/mp4", totalChunks := 0, chunkSize := 1,
          totalSize := 10, state := "initialized", receivedChunks := [],
          uploadID := "", completedParts := [] }) :=
  ⟨⟨by decide, by decide⟩,
   initUpload_validates_only_basic_fields.2 [] "a" "f.mp4" 10 0 1 "sid1"
     "key1" "video/mp4" (by decide) (by decide)⟩


/-! Section: Claim C8 -/

/-- Claim C8 (amended): `handleUploadChunk` never compares `chunk_index`
against `total_chunks`. A fresh index — in particular any index
`≥ total_chunks` — is accepted: the part is uploaded to the store as part
number `int32(index + 1)`, the chunk is recorded in the session, and the
success body (not an `InvalidChunkIndex` error) is returned. (Stated for a
session that the new chunk does not complete.) -/
theorem uploadChunk_accepts_out_of_range_index
    (hashFn : Bytes → String) (tbl : SessionTable)
    (email sid cis : String) (d : Bytes) (etag : String)
    (cr : Except String Unit) (s : UploadSession)
    (hl : tbl.lookup sid = some s) (he : email ≠ "")
    (hm : s.emailID = email)
    (hrange : goParseUint32 cis ≥ s.totalChunks)
    (hnew : s.receivedChunks.lookup (goParseUint32 cis) = none)
    (hnc : s.receivedChunks.length + 1 ≠ s.totalChunks) :
    handleUploadChunk hashFn tbl email sid cis (some d) (.ok etag) cr =
      (setSession tbl sid
        { s with
          receivedChunks := (goParseUint32 cis,
            { index := goParseUint32 cis, size := d.length % 2 ^ 32,
              hash := hashFn d,
              partNumber := toInt32 ((goParseUint32 cis : Int) + 1),
              etag := etag }) :: s.receivedChunks
          completedParts := s.completedParts ++
            [{ partNumber := toInt32 ((goParseUint32 cis : Int) + 1),
               eTag := etag }] },
       .chunkOk false (goParseUint32 cis)
         (s.receivedChunks.length + 1) s.totalChunks,
       [.uploadPart s.s3Key s.uploadID
          (toInt32 ((goParseUint32 cis : Int) + 1)) d]) := by
  unfold handleUploadChunk
  rw [if_neg he, hl]
  dsimp only
  rw [if_neg (by simp [hm])]
  unfold UploadSession.AddChunk
  rw [hnew]
  dsimp only
  rw [if_neg (by simp [UploadSession.IsComplete, hnc])]
  simp

/-- Counterexample to C8 as stated: sending `chunk_index = 5` to a session
with `total_chunks = 1` is not rejected — the store receives an
`upload_part` for part number 6 followed by `complete_multipart`, the
session mutates into a `completed` one, and the response is the success
body. -/
theorem invalid_chunk_index_claim_cex :
    goParseUint32 "5" ≥ oneChunkSession.totalChunks ∧
    (handleUploadChunk demoHash [("s1", oneChunkSession)] "a" "s1" "5"
      (some [1]) (.ok "e1") (.ok ())).2.2 =
      [.uploadPart "k" "u" 6 [1],
       .completeMultipart "k" "u"
         [{ partNumber := 6, eTag := "e1" }]] ∧
    (handleUploadChunk demoHash [("s1", oneChunkSession)] "a" "s1" "5"
      (some [1]) (.ok "e1") (.ok ())).2.1 = .finalOk "k" 1 ∧
    (handleUploadChunk demoHash [("s1", oneChunkSession)] "a" "s1" "5"
      (some [1]) (.ok "e1") (.ok ())).1.lookup "s1" ≠
      some oneChunkSession := by
  decide

/-- Witness for the amended C8: index 7 on a 3-chunk session with one
received chunk is accepted with part number 8. -/
theorem uploadChunk_accepts_out_of_range_index_witness :
    (goParseUint32 "7" ≥
       ({ demoSession with totalChunks := 3 }).totalChunks ∧
     ({ demoSession with totalChunks := 3 }).receivedChunks.lookup
       (goParseUint32 "7") = none) ∧
    (handleUploadChunk demoHash
      [("s1", { demoSession with totalChunks := 3 })] "a" "s1" "7"
      (some [1]) (.ok "e9") (.ok ())).2.1 = .chunkOk false 7 2 3 := by
  refine ⟨⟨by decide, by decide⟩, ?_⟩
  have h := uploadChunk_accepts_out_of_range_index demoHash
    [("s1", { demoSession with totalChunks := 3 })] "a" "s1" "7" [1]
    "e9" (.ok ()) { demoSession with totalChunks := 3 } (by decide)
    (by decide) (by decide) (by decide) (by decide) (by decide)
  rw [h]
  decide

/-! Section: Claim C9 -/

/-- Claim C9: when `CreateMultipartUpload` fails during `/upload/init`, the
handler answers with a 500 error, yet the session just created by
`CreateSession` stays registered in the table with an empty
`multipart_upload_id` — session creation is not rolled back. -/
theorem initUpload_store_failure_keeps_session
    (tbl tbl2 : SessionTable) (email fn : String) (fileSize tc cs : Nat)
    (sid key e : String) (sess : UploadSession)
    (he : email ≠ "") (hf : fn ≠ "")
    (hcs : CreateSession tbl email fn tc cs fileSize sid key =
      .ok (tbl2, sess)) :
    handleInitUpload tbl email fn fileSize tc cs sid key (.error e) =
      (tbl2, .err 500 ("Failed to initialize S3 upload: " ++ e),
       [.initMultipart sess.s3Key sess.contentType]) ∧
    tbl2.lookup sid = some sess ∧ sess.uploadID = "" := by
  refine ⟨?_, ?_⟩
  · unfold handleInitUpload
    rw [if_neg he, if_neg hf, hcs]
  · unfold CreateSession at hcs
    dsimp only at hcs
    cases hsup : SUPPORTED_EXTENSIONS.lookup (toLowerStr (filepathExt fn))
      with
    | none =>
      rw [hsup] at hcs
      exact absurd hcs (by simp)
    | some ct =>
      rw [hsup] at hcs
      dsimp only at hcs
      by_cases hsz : fileSize > MAX_FILE_SIZE
      · rw [if_pos hsz] at hcs
        exact absurd hcs (by simp)
      · rw [if_neg hsz] at hcs
        have hpair := Except.ok.inj hcs
        have h1 := congrArg Prod.fst hpair
        have h2 := congrArg Prod.snd hpair
        dsimp only at h1 h2
        constructor
        · rw [← h1, ← h2]
          simp [List.lookup]
        · rw [← h2]

/-- Witness for C9: with the store down, `/upload/init` returns a 500 but
the fresh session (with empty upload id) is still found in the table. -/
theorem initUpload_store_failure_keeps_session_witness :
    ((handleInitUpload [] "a" "f.mp4" 10 3 5242880 "sid1" "key1"
       (.error "down")).2.1 =
      .err 500 ("Failed to initialize S3 upload: " ++ "down")) ∧
    (((handleInitUpload [] "a" "f.mp4" 10 3 5242880 "sid1" "key1"
       (.error "down")).1.lookup "sid1").map
      (fun s => s.uploadID) = some "") := by
  have h := initUpload_store_failure_keeps_session []
    [("sid1",
      { sessionID := "sid1", emailID := "a", fileName := "f.mp4",
        s3Key := "key1", fileExt := ".mp4", contentType := "video/mp4",
        totalChunks := 3, chunkSize := 5242880, totalSize := 10,
        state := "initialized", receivedChunks := [], uploadID := "",
        completedParts := [] })]
    "a" "f.mp4" 10 3 5242880 "sid1" "key1" "down"
    { sessionID := "sid1", emailID := "a", fileName := "f.mp4",
      s3Key := "key1", fileExt := ".mp4", contentType := "video/mp4",
      totalChunks := 3, chunkSize := 5242880, totalSize := 10,
      state := "initialized", receivedChunks := [], uploadID := "",
      completedParts := [] }
    (by decide) (by decide) (by rfl)
  refine ⟨?_, ?_⟩
  · rw [h.1]
  · rw [h.1]
    decide

/-! Section: Claim C10 -/

/-- Claim C10: a missing or non-decimal `chunk_index` form field does not
reject the request — `strconv.ParseUint`'s error is discarded and its zero
value makes the handler process the chunk exactly as if `chunk_index` were
`"0"` (chunk index 0, part number 1). -/
theorem malformed_chunk_index_treated_as_zero
    (hashFn : Bytes → String) (tbl : SessionTable)
    (email sid str : String) (data : Option Bytes)
    (upr : Except String String) (cr : Except String Unit)
    (hbad : str = "" ∨ str.toList.all Char.isDigit = false) :
    goParseUint32 str = 0 ∧
    handleUploadChunk hashFn tbl email sid str data upr cr =
      handleUploadChunk hashFn tbl email sid "0" data upr cr := by
  have h0 : goParseUint32 str = 0 := by
    rcases hbad with h | h
    · subst h
      rfl
    · have hcond : ¬ (str.toList ≠ [] ∧
          str.toList.all Char.isDigit = true) :=
        fun hc => Bool.false_ne_true (h ▸ hc.2)
      simp only [goParseUint32]
      exact if_neg hcond
  have h00 : goParseUint32 "0" = 0 := by decide
  refine ⟨h0, ?_⟩
  unfold handleUploadChunk
  rw [h0.trans h00.symm]

/-- Witness for C10 at `chunk_index = "abc"`: the request is processed as
chunk index 0. -/
theorem malformed_chunk_index_treated_as_zero_witness :
    (("abc" : String) = "" ∨
      "abc".toList.all Char.isDigit = false) ∧
    (goParseUint32 "abc" = 0 ∧
     handleUploadChunk demoHash [("s1", demoSession)] "a" "s1" "abc"
       (some [9]) (.ok "e2") (.ok ()) =
     handleUploadChunk demoHash [("s1", demoSession)] "a" "s1" "0"
       (some [9]) (.ok "e2") (.ok ())) :=
  ⟨Or.inr (by decide),
   malformed_chunk_index_treated_as_zero demoHash [("s1", demoSession)]
     "a" "s1" "abc" (some [9]) (.ok "e2") (.ok ())
     (Or.inr (by decide))⟩
